import Mathlib

/-
Verification of the PyParamGui configuration-normalization layer.

Shallow embedding of the pure logic of src/pyparamgui (schema.py, utils.py,
io.py).  Python strings are modelled as `List Char`; numeric values (Python
floats) are modelled as exact rationals `ℚ`; Python exceptions (IndexError,
ValueError) are modelled by `Option`; external glotaran library calls are
modelled by an oracle record `Externals` plus an explicit event trace.
-/

namespace PyParamGui

/-- A single parameter of the generated parameter collection
(glotaran `Parameter`): a dotted string label and a numeric value. -/
structure Parameter where
  label : List Char
  value : ℚ
deriving DecidableEq

/-- schema.py `KineticParameters`. -/
structure KineticParameters where
  decay_rates : List ℚ
deriving DecidableEq

/-- schema.py `SpectralParameters`. -/
structure SpectralParameters where
  amplitude : List ℚ
  location : List ℚ
  width : List ℚ
  skewness : List ℚ
deriving DecidableEq

/-- schema.py `TimeCoordinates`. -/
structure TimeCoordinates where
  timepoints_max : ℤ
  timepoints_stepsize : ℚ
deriving DecidableEq

/-- schema.py `SpectralCoordinates`. -/
structure SpectralCoordinates where
  wavelength_min : ℤ
  wavelength_max : ℤ
  wavelength_stepsize : ℚ
deriving DecidableEq

/-- The coordinate dictionary `{"time": ..., "spectral": ...}` of two numpy
axes, modelled as a pair of exact-arithmetic lists. -/
structure Coordinates where
  time : List ℚ
  spectral : List ℚ
deriving DecidableEq

/-- schema.py `Settings`. -/
structure Settings where
  stdev_noise : ℚ
  seed : ℤ
  add_gaussian_irf : Bool
  use_sequential_scheme : Bool
deriving DecidableEq

/-- schema.py `IRF`. -/
structure IRF where
  center : ℚ
  width : ℚ
deriving DecidableEq

/-- schema.py `SimulationConfig`. -/
structure SimulationConfig where
  kinetic_parameters : KineticParameters
  spectral_parameters : SpectralParameters
  coordinates : Coordinates
  settings : Settings
  irf : IRF
deriving DecidableEq

/-- Python `str.split(sep)` for a one-character separator:
`"a.b".split(".") == ["a","b"]`, `"".split(".") == [""]`. -/
def pySplit (sep : Char) : List Char → List (List Char)
  | [] => [[]]
  | c :: rest =>
    if c = sep then [] :: pySplit sep rest
    else
      match pySplit sep rest with
      | [] => [[c]]
      | t :: ts => (c :: t) :: ts

/-- Python list indexing `l[i]`: a negative index counts from the end,
an index out of range raises IndexError (modelled as `none`). -/
def pyGet {α : Type} (l : List α) (i : ℤ) : Option α :=
  let j := if i < 0 then i + l.length else i
  if 0 ≤ j then l.get? j.toNat else none

/-- Decimal value of a list of digit characters. -/
def digitsVal (s : List Char) : ℕ :=
  s.foldl (fun a c => 10 * a + (c.toNat - 48)) 0

/-- Python `int(s)` on the label substrings that occur here: a nonempty
string of decimal digits parses to its value, anything else raises
ValueError (modelled as `none`). -/
def pyInt (s : List Char) : Option ℤ :=
  if s ≠ [] ∧ s.all Char.isDigit then some ((digitsVal s : ℤ)) else none

/-- Python's substring test `needle in hay` on strings. -/
def pyInStr (needle : List Char) : List Char → Bool
  | [] => needle.isPrefixOf []
  | c :: rest => needle.isPrefixOf (c :: rest) || pyInStr needle rest

/-- The `shapes.species_N.attribute` label built from the digit string of
`N` and an attribute name. -/
def shapesLabel (ds attrib : List Char) : List Char :=
  "shapes.species_".data ++ ds ++ '.' :: attrib

/-- The `rates.species_N` label built from the digit string of `N`. -/
def ratesLabel (ds : List Char) : List Char :=
  "rates.species_".data ++ ds

/-- The spectral-parameter list a given attribute name routes to; the
statement-side counterpart of the claim's phrase "the corresponding list
in spectral_parameters". -/
def spectralField (sp : SpectralParameters) (attrib : List Char) :
    Option (List ℚ) :=
  if attrib = "amplitude".data then some sp.amplitude
  else if attrib = "location".data then some sp.location
  else if attrib = "width".data then some sp.width
  else if attrib = "skewness".data then some sp.skewness
  else none

/-- The claim's precondition on a generated label ("list lengths must
match"): a `shapes.species_N.attribute` or `rates.species_N` label has a
digit-string species number `N` with `1 ≤ N` bounded by the lengths of
the lists it is routed from, and any other label starts with neither
routed prefix. -/
def GoodLabel (simulation_config : SimulationConfig) (l : List Char) :
    Prop :=
  (∃ ds attrib, l = shapesLabel ds attrib ∧ ds ≠ []
    ∧ (∀ c ∈ ds, c.isDigit) ∧ '.' ∉ attrib ∧ 1 ≤ digitsVal ds
    ∧ digitsVal ds
      ≤ simulation_config.spectral_parameters.amplitude.length
    ∧ digitsVal ds
      ≤ simulation_config.spectral_parameters.location.length
    ∧ digitsVal ds ≤ simulation_config.spectral_parameters.width.length
    ∧ digitsVal ds
      ≤ simulation_config.spectral_parameters.skewness.length)
  ∨ (∃ ds, l = ratesLabel ds ∧ ds ≠ [] ∧ (∀ c ∈ ds, c.isDigit)
    ∧ 1 ≤ digitsVal ds
    ∧ digitsVal ds
      ≤ simulation_config.kinetic_parameters.decay_rates.length)
  ∨ (("shapes.species_".data).isPrefixOf l = false
    ∧ ("rates.species_".data).isPrefixOf l = false)

/-- utils.py `_update_shape_parameter`: parse
`shapes.species_N.attribute`, route the matching entry of
`spectral_parameters` into the parameter's value.  `none` models a raised
exception (IndexError or ValueError). -/
def _update_shape_parameter (param : Parameter) (label : List Char)
    (simulation_config : SimulationConfig) : Option Parameter :=
  let parts := pySplit '.' label
  (pyGet parts 1).bind fun seg =>
  (pyGet (pySplit '_' seg) 1).bind fun numStr =>
  (pyInt numStr).bind fun n =>
  let species_index : ℤ := n - 1
  (pyGet parts 2).bind fun attrib =>
  let spectral_params := simulation_config.spectral_parameters
  if attrib = "amplitude".data then
    (pyGet spectral_params.amplitude species_index).map
      fun v => { param with value := v }
  else if attrib = "location".data then
    (pyGet spectral_params.location species_index).map
      fun v => { param with value := v }
  else if attrib = "width".data then
    (pyGet spectral_params.width species_index).map
      fun v => { param with value := v }
  else if attrib = "skewness".data then
    (pyGet spectral_params.skewness species_index).map
      fun v => { param with value := v }
  else some param

/-- utils.py `_update_rate_parameter`: parse `rates.species_N`, route
`decay_rates[N-1]` into the parameter's value. -/
def _update_rate_parameter (param : Parameter) (label : List Char)
    (simulation_config : SimulationConfig) : Option Parameter :=
  (pyGet (pySplit '_' label) 1).bind fun numStr =>
  (pyInt numStr).bind fun n =>
  (pyGet simulation_config.kinetic_parameters.decay_rates (n - 1)).map
    fun v => { param with value := v }

/-- utils.py `_update_irf_parameter`: `"width" in label` routes
`irf.width`, else `"center" in label` routes `irf.center`. -/
def _update_irf_parameter (param : Parameter) (label : List Char)
    (simulation_config : SimulationConfig) : Parameter :=
  if pyInStr "width".data label then
    { param with value := simulation_config.irf.width }
  else if pyInStr "center".data label then
    { param with value := simulation_config.irf.center }
  else param

/-- The loop body of utils.py `_update_parameter_values`: dispatch one
parameter on its label prefix. -/
def updateParam (simulation_config : SimulationConfig) (param : Parameter) :
    Option Parameter :=
  let label := param.label
  if ("shapes.species_".data).isPrefixOf label then
    _update_shape_parameter param label simulation_config
  else if ("rates.species_".data).isPrefixOf label then
    _update_rate_parameter param label simulation_config
  else if ("irf".data).isPrefixOf label
      && simulation_config.settings.add_gaussian_irf then
    some (_update_irf_parameter param label simulation_config)
  else some param

/-- utils.py `_update_parameter_values`: walk the flat parameter
collection, updating each parameter from its label.  A raised exception
anywhere is modelled as `none`. -/
def _update_parameter_values : List Parameter → SimulationConfig →
    Option (List Parameter)
  | [], _ => some []
  | p :: rest, simulation_config =>
    (updateParam simulation_config p).bind fun p2 =>
    (_update_parameter_values rest simulation_config).map
      fun rest2 => p2 :: rest2

/-- Number of points of `numpy.arange(start, stop, step)` for positive
`step`, under exact arithmetic: `max(0, ceil((stop - start) / step))`
(numpy's documented semantics; numpy itself is an external library). -/
def arangeLen (start stop step : ℚ) : ℕ :=
  (Int.ceil ((stop - start) / step)).toNat

/-- `numpy.arange(start, stop, step)` for positive `step`, under exact
arithmetic: `start, start + step, ...` while strictly below `stop`. -/
def arange (start stop step : ℚ) : List ℚ :=
  (List.range (arangeLen start stop step)).map
    (fun k : ℕ => start + (k : ℚ) * step)

/-- schema.py `generate_simulation_coordinates`: time axis
`np.arange(0, timepoints_max * timepoints_stepsize, timepoints_stepsize)`,
spectral axis
`np.arange(wavelength_min, wavelength_max, wavelength_stepsize)`. -/
def generate_simulation_coordinates (time_coordinates : TimeCoordinates)
    (spectral_coordinates : SpectralCoordinates) : Coordinates :=
  { time := arange 0
      (time_coordinates.timepoints_max * time_coordinates.timepoints_stepsize)
      time_coordinates.timepoints_stepsize,
    spectral := arange spectral_coordinates.wavelength_min
      spectral_coordinates.wavelength_max
      spectral_coordinates.wavelength_stepsize }

mutual

/-- A YAML/Python value as handled by `_sanitize_dict`: None, bool,
number, string, list, or string-keyed dict (with insertion order). -/
inductive Val where
  | vnone : Val
  | vbool : Bool → Val
  | vnum : ℚ → Val
  | vstr : List Char → Val
  | vlist : ValList → Val
  | vdict : Entries → Val

/-- A list of YAML/Python values. -/
inductive ValList where
  | nil : ValList
  | cons : Val → ValList → ValList

/-- The ordered key/value entries of a dict. -/
inductive Entries where
  | enil : Entries
  | econs : List Char → Val → Entries → Entries

end

/-- Python `v in (None, [], {})`: the membership test of the dict
comprehension filter in `_sanitize_dict` (Python `in` on a tuple uses
equality, so only exactly `None`, `[]` and `{}` match). -/
def isEmptyish : Val → Bool
  | .vnone => true
  | .vlist .nil => true
  | .vdict .enil => true
  | _ => false

mutual

/-- utils.py / io.py `_sanitize_dict`: a non-dict is returned unchanged;
a dict keeps exactly the entries whose original value is not
`None`/`[]`/`{}`, recursively sanitizing each kept value. -/
def _sanitize_dict : Val → Val
  | .vdict d => .vdict (sanitizeEntries d)
  | v => v

/-- The dict comprehension of `_sanitize_dict`, entry by entry: keep
`k : _sanitize_dict(v)` for each entry `(k, v)` of `d.items()` such that
`v not in (None, [], ...)` holds. -/
def sanitizeEntries : Entries → Entries
  | .enil => .enil
  | .econs k v rest =>
    if isEmptyish v then sanitizeEntries rest
    else .econs k (_sanitize_dict v) (sanitizeEntries rest)

end

mutual

/-- Whether a value contains, at any depth (descending through dicts and
lists), a dict entry whose value is `None`, `[]` or `{}`. -/
def hasBadEntry : Val → Bool
  | .vdict d => hasBadEntries d
  | .vlist l => hasBadEntryL l
  | _ => false

/-- `hasBadEntry` over the elements of a list value. -/
def hasBadEntryL : ValList → Bool
  | .nil => false
  | .cons v rest => hasBadEntry v || hasBadEntryL rest

/-- `hasBadEntry` over dict entries: some entry value is
`None`/`[]`/`{}`, or some entry value contains a bad entry deeper. -/
def hasBadEntries : Entries → Bool
  | .enil => false
  | .econs _ v rest => isEmptyish v || hasBadEntry v || hasBadEntries rest

end

/-- Whether a value is exactly `None` or the empty list. -/
def isNoneOrEmptyList : Val → Bool
  | .vnone => true
  | .vlist .nil => true
  | _ => false

mutual

/-- Whether every dict entry reachable by descending through dict values
only (lists are not descended into, mirroring `_sanitize_dict`'s own
recursion) has a value that is neither `None` nor the empty list. -/
def goodDict : Val → Bool
  | .vdict d => goodEntries d
  | _ => true

/-- `goodDict` over dict entries. -/
def goodEntries : Entries → Bool
  | .enil => true
  | .econs _ v rest =>
    !(isNoneOrEmptyList v) && goodDict v && goodEntries rest

end

/-- Whether a value is a dict. -/
def isDictB : Val → Bool
  | .vdict _ => true
  | _ => false

/-- The pipeline calls into the external glotaran library, recorded as an
explicit trace; `Model` is the library's opaque model type. -/
inductive Event (Model : Type) where
  | callGenerateModel (generator_name : List Char) (nr_compartments : ℕ)
      (irf : Bool)
  | callSaveModel (model : Model) (file_name : List Char)
  | callSanitizeYaml (input_file output_file : List Char)
  | callGenerateParameters (model : Model)
  | callValidate (model : Model) (ps : List Parameter)
  | callSaveParameters (ps : List Parameter) (file_name : List Char)
  | callSimulate (model : Model) (ps : List Parameter)
      (coordinates : Coordinates) (noise : Bool) (noise_std_dev : ℚ)
      (noise_seed : ℤ)
  | callSaveDataset (file_name : List Char)

/-- The external glotaran functions whose return values this code
consumes, as an oracle: `generate_model` and
`Model.generate_parameters`. -/
structure Externals (Model : Type) where
  generate_model : List Char → ℕ → Bool → Model
  generate_parameters : Model → List Parameter

/-- utils.py `_generate_model_file`: pick the generator name from
`use_sequential_scheme`, call the external generator with
`nr_compartments` and `irf`, save and sanitize the model file.  Returns
the model and the trace of external calls. -/
def _generate_model_file {Model : Type} (ext : Externals Model)
    (simulation_config : SimulationConfig) (nr_compartments : ℕ)
    (file_name : List Char) : Model × List (Event Model) :=
  let generator_name :=
    if simulation_config.settings.use_sequential_scheme then
      "spectral_decay_sequential".data
    else "spectral_decay_parallel".data
  let model := ext.generate_model generator_name nr_compartments
    simulation_config.settings.add_gaussian_irf
  (model,
    [Event.callGenerateModel generator_name nr_compartments
        simulation_config.settings.add_gaussian_irf,
      Event.callSaveModel model "temp_model.yml".data,
      Event.callSanitizeYaml "temp_model.yml".data file_name])

/-- utils.py `_generate_parameter_file`: generate the parameters from the
model, rewrite them with `_update_parameter_values`, validate and save
the rewritten ones.  If the rewrite raises, the result is `none` and only
the generation call is in the trace. -/
def _generate_parameter_file {Model : Type} (ext : Externals Model)
    (simulation_config : SimulationConfig) (model : Model)
    (file_name : List Char) :
    Option (List Parameter) × List (Event Model) :=
  let parameters := ext.generate_parameters model
  match _update_parameter_values parameters simulation_config with
  | none => (none, [Event.callGenerateParameters model])
  | some updated_parameters =>
    (some updated_parameters,
      [Event.callGenerateParameters model,
        Event.callValidate model updated_parameters,
        Event.callSaveParameters updated_parameters file_name])

/-- utils.py `_generate_data_file`: `noise = settings.stdev_noise != 0`,
then call the external `simulate` with the noise flag, standard
deviation and seed, and save the dataset. -/
def _generate_data_file {Model : Type} (model : Model)
    (parameters : List Parameter) (coordinates : Coordinates)
    (settings : Settings) (file_name : List Char) : List (Event Model) :=
  let noise : Bool := decide (settings.stdev_noise ≠ 0)
  [Event.callSimulate model parameters coordinates noise
      settings.stdev_noise settings.seed,
    Event.callSaveDataset file_name]

/-- utils.py `generate_model_parameter_and_data_files`: model file, then
parameter file, then data file.  Returns the trace of external calls and
whether the pipeline ran to completion (`false` models an exception
escaping from the parameter rewrite, after which no further step runs). -/
def generate_model_parameter_and_data_files {Model : Type}
    (ext : Externals Model) (simulation_config : SimulationConfig)
    (model_file_name parameter_file_name data_file_name : List Char) :
    List (Event Model) × Bool :=
  let nr_compartments :=
    simulation_config.kinetic_parameters.decay_rates.length
  let mr := _generate_model_file ext simulation_config nr_compartments
    model_file_name
  match _generate_parameter_file ext simulation_config mr.1
      parameter_file_name with
  | (none, t2) => (mr.2 ++ t2, false)
  | (some parameters, t2) =>
    (mr.2 ++ t2 ++ _generate_data_file mr.1 parameters
        simulation_config.coordinates simulation_config.settings
        data_file_name,
      true)

namespace IoPy

/-- io.py `_generate_parameter_file`: generate the parameters from the
model, validate and save them as generated — this variant performs no
label-driven rewrite and never raises. -/
def _generate_parameter_file {Model : Type} (ext : Externals Model)
    (model : Model) (file_name : List Char) :
    List Parameter × List (Event Model) :=
  let parameters := ext.generate_parameters model
  (parameters,
    [Event.callGenerateParameters model,
      Event.callValidate model parameters,
      Event.callSaveParameters parameters file_name])

end IoPy

/-- A small concrete simulation configuration used to exercise the
definitions on closed inputs. -/
def cfgW : SimulationConfig :=
  { kinetic_parameters := { decay_rates := [7, 8] }
    spectral_parameters :=
      { amplitude := [1, 2], location := [3, 4], width := [5, 6],
        skewness := [9, 10] }
    coordinates := { time := [], spectral := [] }
    settings :=
      { stdev_noise := 0, seed := 42, add_gaussian_irf := true,
        use_sequential_scheme := false }
    irf := { center := 11, width := 12 } }

/-- A small concrete generated parameter collection with one label of
each kind. -/
def psW : List Parameter :=
  [⟨"shapes.species_1.amplitude".data, 0⟩,
    ⟨"rates.species_2".data, 0⟩,
    ⟨"irf.width".data, 0⟩,
    ⟨"irf.center".data, 0⟩,
    ⟨"other.thing".data, 0⟩]

/-- The rewrite of `psW` under `cfgW`. -/
def psW2 : List Parameter :=
  [⟨"shapes.species_1.amplitude".data, 1⟩,
    ⟨"rates.species_2".data, 8⟩,
    ⟨"irf.width".data, 12⟩,
    ⟨"irf.center".data, 11⟩,
    ⟨"other.thing".data, 0⟩]

/-- The nested mapping (as Python) `d = ...` with a single key `x` whose
value is the dict with key `y` mapped to `None`. -/
def exBad : Val :=
  .vdict (.econs "x".data (.vdict (.econs "y".data .vnone .enil)) .enil)

/-- The nested mapping with key `a` mapped to a one-element list holding
a dict with key `b` mapped to `None`. -/
def exList : Val :=
  .vdict (.econs "a".data
    (.vlist (.cons (.vdict (.econs "b".data .vnone .enil)) .nil)) .enil)

/-- A small concrete time coordinate record. -/
def tcW : TimeCoordinates := ⟨3, 1⟩

/-- A small concrete spectral coordinate record. -/
def scW : SpectralCoordinates := ⟨400, 403, 1⟩

/-- A concrete external-library oracle over the trivial model type: the
generated parameter collection is `psW`. -/
def extW : Externals Unit :=
  { generate_model := fun _ _ _ => ()
    generate_parameters := fun _ => psW }

theorem pySplit_of_not_mem {sep : Char} {a : List Char} (h : sep ∉ a) :
    pySplit sep a = [a] := by
  induction a with
  | nil => rfl
  | cons c rest ih =>
    have hc : ¬ c = sep := fun hcs => h (hcs ▸ List.mem_cons_self c rest)
    have hrest : sep ∉ rest := fun hm => h (List.mem_cons_of_mem _ hm)
    simp only [pySplit, if_neg hc, ih hrest]

theorem pySplit_append_sep {sep : Char} {a b : List Char} (h : sep ∉ a) :
    pySplit sep (a ++ sep :: b) = a :: pySplit sep b := by
  induction a with
  | nil =>
    simp [pySplit]
  | cons c rest ih =>
    have hc : ¬ c = sep := fun hcs => h (hcs ▸ List.mem_cons_self c rest)
    have hrest : sep ∉ rest := fun hm => h (List.mem_cons_of_mem _ hm)
    simp only [List.cons_append, pySplit, if_neg hc]
    rw [show rest.append (sep :: b) = rest ++ sep :: b from rfl, ih hrest]

theorem pySplit_ne_nil (sep : Char) (s : List Char) : pySplit sep s ≠ [] := by
  cases s with
  | nil => simp [pySplit]
  | cons c rest =>
    simp only [pySplit]
    split
    · simp
    · split
      · simp
      · simp

theorem pyGet_nonneg {α : Type} (l : List α) (i : ℕ) :
    pyGet l (i : ℤ) = l.get? i := by
  have h1 : ¬ ((i : ℤ) < 0) := by omega
  have h2 : (0 : ℤ) ≤ (i : ℤ) := by omega
  simp [pyGet, h1, h2]

theorem pyGet_of_get? {α : Type} {l : List α} {n : ℕ} {w : α}
    (h1 : 1 ≤ n) (hw : l.get? (n - 1) = some w) :
    pyGet l ((n : ℤ) - 1) = some w := by
  have hlt : ¬ ((n : ℤ) - 1 < 0) := by omega
  have h0 : (0 : ℤ) ≤ (n : ℤ) - 1 := by omega
  have ht : ((n : ℤ) - 1).toNat = n - 1 := by omega
  simp only [pyGet, if_neg hlt, if_pos h0, ht, hw]

theorem pyInt_digits {ds : List Char} (hne : ds ≠ [])
    (hdig : ∀ c ∈ ds, c.isDigit) :
    pyInt ds = some ((digitsVal ds : ℤ)) := by
  have : ds ≠ [] ∧ ds.all Char.isDigit := by
    refine ⟨hne, ?_⟩
    simpa [List.all_eq_true] using hdig
  simp [pyInt, this]

theorem no_dot_of_digits {ds : List Char} (hdig : ∀ c ∈ ds, c.isDigit) :
    '.' ∉ ds := by
  intro hm
  have := hdig '.' hm
  simp [Char.isDigit] at this

theorem no_underscore_of_digits {ds : List Char}
    (hdig : ∀ c ∈ ds, c.isDigit) : '_' ∉ ds := by
  intro hm
  have := hdig '_' hm
  simp [Char.isDigit] at this

theorem pySplit_shapesLabel {ds attrib : List Char}
    (hdig : ∀ c ∈ ds, c.isDigit) (hattr : '.' ∉ attrib) :
    pySplit '.' (shapesLabel ds attrib)
      = ["shapes".data, "species_".data ++ ds, attrib] := by
  have h0 : "shapes.species_".data = "shapes".data ++ '.' :: "species_".data := rfl
  have h1 : shapesLabel ds attrib
      = "shapes".data ++ '.' :: (("species_".data ++ ds) ++ '.' :: attrib) := by
    simp [shapesLabel, h0, List.append_assoc]
  rw [h1, pySplit_append_sep (by decide), pySplit_append_sep, pySplit_of_not_mem hattr]
  intro hm
  rcases List.mem_append.mp hm with hm1 | hm2
  · revert hm1; decide
  · exact no_dot_of_digits hdig hm2

theorem pySplit_species {ds : List Char} (hdig : ∀ c ∈ ds, c.isDigit) :
    pySplit '_' ("species_".data ++ ds) = ["species".data, ds] := by
  have h0 : "species_".data = "species".data ++ ['_'] := rfl
  have h1 : "species_".data ++ ds = "species".data ++ '_' :: ds := by
    rw [h0, List.append_assoc]
    rfl
  rw [h1, pySplit_append_sep (by decide),
    pySplit_of_not_mem (no_underscore_of_digits hdig)]

theorem pyGet_one {α : Type} (a b : α) (l : List α) :
    pyGet (a :: b :: l) 1 = some b := by
  have h := pyGet_nonneg (a :: b :: l) 1
  simpa using h

theorem pyGet_two {α : Type} (a b c : α) (l : List α) :
    pyGet (a :: b :: c :: l) 2 = some c := by
  have h := pyGet_nonneg (a :: b :: c :: l) 2
  simpa using h

theorem pySplit_ratesLabel {ds : List Char} (hdig : ∀ c ∈ ds, c.isDigit) :
    pySplit '_' (ratesLabel ds) = ["rates.species".data, ds] := by
  have h0 : "rates.species_".data = "rates.species".data ++ ['_'] := rfl
  have h1 : ratesLabel ds = "rates.species".data ++ '_' :: ds := by
    rw [ratesLabel, h0, List.append_assoc]
    rfl
  rw [h1, pySplit_append_sep (by decide),
    pySplit_of_not_mem (no_underscore_of_digits hdig)]

theorem updateParam_shapesLabel {simulation_config : SimulationConfig}
    {ds attrib : List Char} {lst : List ℚ} {w : ℚ} (v : ℚ)
    (hne : ds ≠ []) (hdig : ∀ c ∈ ds, c.isDigit) (hattr : '.' ∉ attrib)
    (hfield : spectralField simulation_config.spectral_parameters attrib
      = some lst)
    (h1 : 1 ≤ digitsVal ds)
    (hw : lst.get? (digitsVal ds - 1) = some w) :
    updateParam simulation_config ⟨shapesLabel ds attrib, v⟩
      = some ⟨shapesLabel ds attrib, w⟩ := by
  have hpre : ("shapes.species_".data).isPrefixOf (shapesLabel ds attrib)
      = true := by
    rw [List.isPrefixOf_iff_prefix, shapesLabel]
    exact List.prefix_append _ _
  rw [updateParam, if_pos hpre]
  rw [_update_shape_parameter]
  simp only [pySplit_shapesLabel hdig hattr, pyGet_one, pyGet_two,
    Option.some_bind]
  simp only [pySplit_species hdig, pyGet_one, Option.some_bind,
    pyInt_digits hne hdig]
  have hg := pyGet_of_get? h1 hw
  rw [spectralField] at hfield
  split_ifs at hfield with ha hb hc hd
  · subst ha
    rw [← Option.some_inj.mp hfield] at hg
    simp [hg]
  · subst hb
    rw [← Option.some_inj.mp hfield] at hg
    simp [hg]
  · subst hc
    rw [← Option.some_inj.mp hfield] at hg
    simp [hg]
  · subst hd
    rw [← Option.some_inj.mp hfield] at hg
    simp [hg]

theorem updateParam_ratesLabel {simulation_config : SimulationConfig}
    {ds : List Char} {w : ℚ} (v : ℚ)
    (hne : ds ≠ []) (hdig : ∀ c ∈ ds, c.isDigit)
    (h1 : 1 ≤ digitsVal ds)
    (hw : simulation_config.kinetic_parameters.decay_rates.get?
      (digitsVal ds - 1) = some w) :
    updateParam simulation_config ⟨ratesLabel ds, v⟩
      = some ⟨ratesLabel ds, w⟩ := by
  have hx : ("shapes.species_".data).isPrefixOf (ratesLabel ds)
      = false := rfl
  have hpre1 : ¬ (("shapes.species_".data).isPrefixOf (ratesLabel ds)
      = true) := by simp [hx]
  have hpre2 : ("rates.species_".data).isPrefixOf (ratesLabel ds)
      = true := by
    rw [List.isPrefixOf_iff_prefix, ratesLabel]
    exact List.prefix_append _ _
  rw [updateParam, if_neg hpre1, if_pos hpre2]
  rw [_update_rate_parameter]
  simp only [pySplit_ratesLabel hdig, pyGet_one, Option.some_bind,
    pyInt_digits hne hdig]
  rw [pyGet_of_get? h1 hw, Option.map_some']

theorem updateParam_irfLabel {simulation_config : SimulationConfig}
    {t : List Char} (v : ℚ) :
    updateParam simulation_config ⟨"irf".data ++ t, v⟩
      = (if simulation_config.settings.add_gaussian_irf then
          some (_update_irf_parameter ⟨"irf".data ++ t, v⟩
            ("irf".data ++ t) simulation_config)
        else some ⟨"irf".data ++ t, v⟩) := by
  have hx1 : ("shapes.species_".data).isPrefixOf ("irf".data ++ t)
      = false := rfl
  have hx2 : ("rates.species_".data).isPrefixOf ("irf".data ++ t)
      = false := rfl
  have hpre1 : ¬ (("shapes.species_".data).isPrefixOf ("irf".data ++ t)
      = true) := by simp [hx1]
  have hpre2 : ¬ (("rates.species_".data).isPrefixOf ("irf".data ++ t)
      = true) := by simp [hx2]
  have hpre3 : ("irf".data).isPrefixOf ("irf".data ++ t) = true := by
    rw [List.isPrefixOf_iff_prefix]
    exact List.prefix_append _ _
  rw [updateParam, if_neg hpre1, if_neg hpre2]
  simp only [hpre3, Bool.true_and]

theorem updateParam_other {simulation_config : SimulationConfig}
    {p : Parameter}
    (h1 : ("shapes.species_".data).isPrefixOf p.label = false)
    (h2 : ("rates.species_".data).isPrefixOf p.label = false)
    (h3 : ("irf".data).isPrefixOf p.label = false) :
    updateParam simulation_config p = some p := by
  rw [updateParam]
  simp [h1, h2, h3]

theorem updateParam_label_of_some {simulation_config : SimulationConfig}
    {p p2 : Parameter}
    (h : updateParam simulation_config p = some p2) : p2.label = p.label := by
  rw [updateParam] at h
  split_ifs at h with hif1 hif2 hif3
  · rw [_update_shape_parameter] at h
    simp only [Option.bind_eq_some, Option.map_eq_some'] at h
    obtain ⟨seg, _, numStr, _, n, _, attrib, _, h⟩ := h
    split_ifs at h
    · rw [Option.map_eq_some'] at h
      obtain ⟨v, _, he⟩ := h
      rw [← he]
    · rw [Option.map_eq_some'] at h
      obtain ⟨v, _, he⟩ := h
      rw [← he]
    · rw [Option.map_eq_some'] at h
      obtain ⟨v, _, he⟩ := h
      rw [← he]
    · rw [Option.map_eq_some'] at h
      obtain ⟨v, _, he⟩ := h
      rw [← he]
    · rw [← Option.some_inj.mp h]
  · rw [_update_rate_parameter] at h
    simp only [Option.bind_eq_some, Option.map_eq_some'] at h
    obtain ⟨numStr, _, n, _, v, _, he⟩ := h
    rw [← he]
  · rw [Option.some_inj] at h
    rw [← h, _update_irf_parameter]
    split_ifs <;> rfl
  · rw [← Option.some_inj.mp h]

theorem _update_parameter_values_get {simulation_config : SimulationConfig} :
    ∀ {ps ps2 : List Parameter},
      _update_parameter_values ps simulation_config = some ps2 →
      ps2.length = ps.length ∧
        ∀ i : ℕ, ps2.get? i = (ps.get? i).bind (updateParam simulation_config)
  | [], ps2, h => by
    rw [_update_parameter_values] at h
    rw [← Option.some_inj.mp h]
    exact ⟨rfl, fun i => by simp⟩
  | p :: rest, ps2, h => by
    rw [_update_parameter_values] at h
    rw [Option.bind_eq_some] at h
    obtain ⟨p2, hp2, h⟩ := h
    rw [Option.map_eq_some'] at h
    obtain ⟨rest2, hrest2, he⟩ := h
    obtain ⟨ihl, ihg⟩ := _update_parameter_values_get hrest2
    rw [← he]
    refine ⟨by simp [ihl], fun i => ?_⟩
    cases i with
    | zero => simp [hp2]
    | succ j => simpa using ihg j

/-- C1: for every parameter of the collection whose label has the form
`shapes.species_N.attribute` with attribute one of amplitude, location,
width, skewness, `_update_parameter_values` sets that parameter's value to
entry `N - 1` (0-based) of the corresponding list in
`spectral_parameters`; and for every parameter whose label has the form
`rates.species_N`, it sets the value to entry `N - 1` of
`kinetic_parameters.decay_rates`. -/
theorem update_parameter_values_routes_labels
    (simulation_config : SimulationConfig) (ps ps2 : List Parameter)
    (hupd : _update_parameter_values ps simulation_config = some ps2)
    (i : ℕ) (p : Parameter) (hp : ps.get? i = some p) :
    (∀ ds attrib lst w, p.label = shapesLabel ds attrib → ds ≠ [] →
      (∀ c ∈ ds, c.isDigit) → '.' ∉ attrib →
      spectralField simulation_config.spectral_parameters attrib
        = some lst →
      1 ≤ digitsVal ds → lst.get? (digitsVal ds - 1) = some w →
      ps2.get? i = some ⟨p.label, w⟩)
    ∧ (∀ ds w, p.label = ratesLabel ds → ds ≠ [] →
      (∀ c ∈ ds, c.isDigit) → 1 ≤ digitsVal ds →
      simulation_config.kinetic_parameters.decay_rates.get?
        (digitsVal ds - 1) = some w →
      ps2.get? i = some ⟨p.label, w⟩) := by
  obtain ⟨_, hget⟩ := _update_parameter_values_get hupd
  have hi : ps2.get? i = updateParam simulation_config p := by
    rw [hget i, hp, Option.some_bind]
  obtain ⟨plabel, pvalue⟩ := p
  constructor
  · intro ds attrib lst w hl hne hdig hattr hfield h1 hw
    simp only at hl
    subst hl
    rw [hi, updateParam_shapesLabel pvalue hne hdig hattr hfield h1 hw]
  · intro ds w hl hne hdig h1 hw
    simp only at hl
    subst hl
    rw [hi, updateParam_ratesLabel pvalue hne hdig h1 hw]

/-- C8: for every parameter whose label starts with `irf`: when
`settings.add_gaussian_irf` is false, `_update_parameter_values` leaves
its value unchanged; when it is true, the value is set to `irf.width`
when the label contains `width`, and otherwise to `irf.center` when the
label contains `center`. -/
theorem update_parameter_values_irf_routing
    (simulation_config : SimulationConfig) (ps ps2 : List Parameter)
    (hupd : _update_parameter_values ps simulation_config = some ps2)
    (i : ℕ) (p : Parameter) (hp : ps.get? i = some p)
    (t : List Char) (hl : p.label = "irf".data ++ t) :
    (simulation_config.settings.add_gaussian_irf = false →
      ps2.get? i = some p)
    ∧ (simulation_config.settings.add_gaussian_irf = true →
      (pyInStr "width".data p.label = true →
        ps2.get? i = some ⟨p.label, simulation_config.irf.width⟩)
      ∧ (pyInStr "width".data p.label = false →
        pyInStr "center".data p.label = true →
        ps2.get? i = some ⟨p.label, simulation_config.irf.center⟩)) := by
  obtain ⟨_, hget⟩ := _update_parameter_values_get hupd
  have hi : ps2.get? i = updateParam simulation_config p := by
    rw [hget i, hp, Option.some_bind]
  obtain ⟨plabel, pvalue⟩ := p
  simp only at hl
  subst hl
  rw [updateParam_irfLabel pvalue] at hi
  constructor
  · intro hfalse
    rw [hi, hfalse]
    simp
  · intro htrue
    rw [htrue] at hi
    simp only [if_true] at hi
    constructor
    · intro hwid
      rw [hi, _update_irf_parameter, if_pos hwid]
    · intro hwid hcen
      rw [hi, _update_irf_parameter, if_neg (by simp only [hwid]; simp),
        if_pos hcen]

/-- C9: `_update_parameter_values` returns a collection of the same
length with the same labels position by position, and leaves every
parameter unchanged whose label starts with none of `shapes.species_`,
`rates.species_`, `irf`. -/
theorem update_parameter_values_frame
    (simulation_config : SimulationConfig) (ps ps2 : List Parameter)
    (hupd : _update_parameter_values ps simulation_config = some ps2) :
    ps2.length = ps.length
    ∧ (∀ i p, ps.get? i = some p →
      ∃ p2, ps2.get? i = some p2 ∧ p2.label = p.label)
    ∧ (∀ i p, ps.get? i = some p →
      ("shapes.species_".data).isPrefixOf p.label = false →
      ("rates.species_".data).isPrefixOf p.label = false →
      ("irf".data).isPrefixOf p.label = false →
      ps2.get? i = some p) := by
  obtain ⟨hlen, hget⟩ := _update_parameter_values_get hupd
  refine ⟨hlen, fun i p hp => ?_, fun i p hp h1 h2 h3 => ?_⟩
  · have hi : ps2.get? i = updateParam simulation_config p := by
      rw [hget i, hp, Option.some_bind]
    have hlt : i < ps.length := (List.get?_eq_some.mp hp).1
    have hne : ps2.get? i ≠ none := by
      intro hcontra
      rw [List.get?_eq_none] at hcontra
      omega
    rcases hu : updateParam simulation_config p with _ | p2
    · rw [hu] at hi
      exact absurd hi hne
    · exact ⟨p2, by rw [hi, hu], updateParam_label_of_some hu⟩
  · have hi : ps2.get? i = updateParam simulation_config p := by
      rw [hget i, hp, Option.some_bind]
    rw [hi, updateParam_other h1 h2 h3]

theorem updateParam_shapesLabel_otherAttr {simulation_config : SimulationConfig}
    {ds attrib : List Char} (v : ℚ)
    (hne : ds ≠ []) (hdig : ∀ c ∈ ds, c.isDigit) (hattr : '.' ∉ attrib)
    (hsf : spectralField simulation_config.spectral_parameters attrib
      = none) :
    updateParam simulation_config ⟨shapesLabel ds attrib, v⟩
      = some ⟨shapesLabel ds attrib, v⟩ := by
  have hpre : ("shapes.species_".data).isPrefixOf (shapesLabel ds attrib)
      = true := by
    rw [List.isPrefixOf_iff_prefix, shapesLabel]
    exact List.prefix_append _ _
  rw [updateParam, if_pos hpre]
  rw [_update_shape_parameter]
  simp only [pySplit_shapesLabel hdig hattr, pyGet_one, pyGet_two,
    Option.some_bind]
  simp only [pySplit_species hdig, pyGet_one, Option.some_bind,
    pyInt_digits hne hdig]
  rw [spectralField] at hsf
  split_ifs at hsf with ha hb hc hd
  rw [if_neg ha, if_neg hb, if_neg hc, if_neg hd]

theorem updateParam_isSome {simulation_config : SimulationConfig}
    (p : Parameter) (h : GoodLabel simulation_config p.label) :
    (updateParam simulation_config p).isSome = true := by
  obtain ⟨plabel, pvalue⟩ := p
  simp only at h
  rcases h with ⟨ds, attrib, hl, hne, hdig, hattr, h1, ha, hb, hc, hd⟩ |
    ⟨ds, hl, hne, hdig, h1, hlen⟩ | ⟨hp1, hp2⟩
  · subst hl
    rcases hsf : spectralField simulation_config.spectral_parameters attrib
        with _ | lst
    · rw [updateParam_shapesLabel_otherAttr pvalue hne hdig hattr hsf]
      rfl
    · have hlen : digitsVal ds ≤ lst.length := by
        rw [spectralField] at hsf
        split_ifs at hsf
        · rw [← Option.some_inj.mp hsf]
          exact ha
        · rw [← Option.some_inj.mp hsf]
          exact hb
        · rw [← Option.some_inj.mp hsf]
          exact hc
        · rw [← Option.some_inj.mp hsf]
          exact hd
      have hget : lst.get? (digitsVal ds - 1)
          = some (lst.get ⟨digitsVal ds - 1, by omega⟩) :=
        List.get?_eq_get (by omega)
      rw [updateParam_shapesLabel pvalue hne hdig hattr hsf h1 hget]
      rfl
  · subst hl
    have hget : simulation_config.kinetic_parameters.decay_rates.get?
        (digitsVal ds - 1)
        = some (simulation_config.kinetic_parameters.decay_rates.get
          ⟨digitsVal ds - 1, by omega⟩) :=
      List.get?_eq_get (by omega)
    rw [updateParam_ratesLabel pvalue hne hdig h1 hget]
    rfl
  · by_cases hirf : ("irf".data).isPrefixOf plabel = true
    · obtain ⟨t, ht⟩ := List.isPrefixOf_iff_prefix.mp hirf
      rw [← ht, updateParam_irfLabel pvalue]
      split <;> rfl
    · have hp3 : ("irf".data).isPrefixOf plabel = false := by
        cases hx : ("irf".data).isPrefixOf plabel
        · rfl
        · exact absurd hx hirf
      rw [updateParam_other hp1 hp2 hp3]
      rfl

theorem _update_parameter_values_isSome_aux
    (simulation_config : SimulationConfig) :
    ∀ ps : List Parameter,
      (∀ p ∈ ps, GoodLabel simulation_config p.label) →
      (_update_parameter_values ps simulation_config).isSome = true
  | [], _ => rfl
  | p :: rest, h => by
    have h1 := updateParam_isSome p (h p (by simp))
    have h2 := _update_parameter_values_isSome_aux simulation_config rest
      (fun q hq => h q (by simp [hq]))
    rw [_update_parameter_values]
    rcases hu : updateParam simulation_config p with _ | p2
    · rw [hu] at h1
      exact absurd h1 (by simp)
    rcases hr : _update_parameter_values rest simulation_config
        with _ | rest2
    · rw [hr] at h2
      exact absurd h2 (by simp)
    simp

/-- C5: under the precondition that every label's species number `N`
satisfies `1 ≤ N` bounded by the decay-rates length for rate labels and
by the four spectral list lengths for shape labels, the rewriter
performs every list access in bounds: `_update_parameter_values` reaches
no error outcome (the `none` modelling a raised IndexError is
unreachable). -/
theorem update_parameter_values_in_bounds
    (simulation_config : SimulationConfig) (ps : List Parameter)
    (h : ∀ p ∈ ps, GoodLabel simulation_config p.label) :
    (_update_parameter_values ps simulation_config).isSome = true :=
  _update_parameter_values_isSome_aux simulation_config ps h

/-- Witness for C5: the concrete collection `psW` satisfies the
precondition under `cfgW` and the rewrite succeeds on it. -/
theorem update_parameter_values_in_bounds_witness :
    (_update_parameter_values psW cfgW).isSome = true := by
  refine update_parameter_values_in_bounds cfgW psW ?_
  intro p hp
  rw [psW] at hp
  simp only [List.mem_cons, List.not_mem_nil, or_false] at hp
  rcases hp with rfl | rfl | rfl | rfl | rfl
  · exact Or.inl ⟨['1'], "amplitude".data, by decide, by decide, by decide,
      by decide, by decide, by decide, by decide, by decide, by decide⟩
  · exact Or.inr (Or.inl ⟨['2'], by decide, by decide, by decide,
      by decide, by decide⟩)
  · exact Or.inr (Or.inr ⟨by decide, by decide⟩)
  · exact Or.inr (Or.inr ⟨by decide, by decide⟩)
  · exact Or.inr (Or.inr ⟨by decide, by decide⟩)

/-- Witness for C1: on the concrete collection `psW` under `cfgW`, the
shape label `shapes.species_1.amplitude` receives `amplitude[0] = 1` and
the rate label `rates.species_2` receives `decay_rates[1] = 8`. -/
theorem update_parameter_values_routes_labels_witness :
    _update_parameter_values psW cfgW = some psW2
    ∧ psW2.get? 0 = some ⟨"shapes.species_1.amplitude".data, 1⟩
    ∧ psW2.get? 1 = some ⟨"rates.species_2".data, 8⟩ := by
  refine ⟨rfl, ?_, ?_⟩
  · exact (update_parameter_values_routes_labels cfgW psW psW2 rfl 0
      ⟨"shapes.species_1.amplitude".data, 0⟩ rfl).1
      ['1'] "amplitude".data [1, 2] 1 (by decide) (by decide) (by decide)
      (by decide) rfl (by decide) (by decide)
  · exact (update_parameter_values_routes_labels cfgW psW psW2 rfl 1
      ⟨"rates.species_2".data, 0⟩ rfl).2
      ['2'] 8 (by decide) (by decide) (by decide) (by decide) (by decide)

/-- Witness for C8: on `psW` under `cfgW` (whose `add_gaussian_irf` is
true), `irf.width` receives the IRF width 12 and `irf.center` the IRF
center 11. -/
theorem update_parameter_values_irf_routing_witness :
    psW2.get? 2 = some ⟨"irf.width".data, 12⟩
    ∧ psW2.get? 3 = some ⟨"irf.center".data, 11⟩ := by
  constructor
  · exact ((update_parameter_values_irf_routing cfgW psW psW2 rfl 2
      ⟨"irf.width".data, 0⟩ rfl ".width".data (by decide)).2 rfl).1
      (by decide)
  · exact ((update_parameter_values_irf_routing cfgW psW psW2 rfl 3
      ⟨"irf.center".data, 0⟩ rfl ".center".data (by decide)).2 rfl).2
      (by decide) (by decide)

/-- Witness for C9: the rewrite of `psW` under `cfgW` keeps the length
and leaves the unrelated label `other.thing` untouched. -/
theorem update_parameter_values_frame_witness :
    psW2.length = psW.length
    ∧ psW2.get? 4 = some ⟨"other.thing".data, 0⟩ := by
  constructor
  · exact (update_parameter_values_frame cfgW psW psW2 rfl).1
  · exact (update_parameter_values_frame cfgW psW psW2 rfl).2.2 4
      ⟨"other.thing".data, 0⟩ rfl (by decide) (by decide) (by decide)

/-- C4: for positive step sizes and a positive `timepoints_max`, the time
axis starts at 0, increases by `timepoints_stepsize`, and has exactly
`timepoints_max` points under exact arithmetic; the spectral axis is the
arithmetic progression starting at `wavelength_min` with step
`wavelength_stepsize` containing exactly the values strictly below
`wavelength_max`. -/
theorem generate_simulation_coordinates_axes
    (tc : TimeCoordinates) (sc : SpectralCoordinates)
    (h1 : 0 < tc.timepoints_stepsize) (h2 : 0 < tc.timepoints_max)
    (h3 : 0 < sc.wavelength_stepsize) :
    (generate_simulation_coordinates tc sc).time
      = (List.range tc.timepoints_max.toNat).map
          (fun k : ℕ => (k : ℚ) * tc.timepoints_stepsize)
    ∧ (generate_simulation_coordinates tc sc).time.length
      = tc.timepoints_max.toNat
    ∧ ∃ K, (generate_simulation_coordinates tc sc).spectral
        = (List.range K).map
            (fun k : ℕ => (sc.wavelength_min : ℚ)
              + (k : ℚ) * sc.wavelength_stepsize)
      ∧ ∀ k : ℕ, (k < K ↔
          (sc.wavelength_min : ℚ) + (k : ℚ) * sc.wavelength_stepsize
            < (sc.wavelength_max : ℚ)) := by
  have hstep : tc.timepoints_stepsize ≠ 0 := ne_of_gt h1
  have hn : arangeLen 0
      ((tc.timepoints_max : ℚ) * tc.timepoints_stepsize)
      tc.timepoints_stepsize = tc.timepoints_max.toNat := by
    rw [arangeLen, sub_zero, mul_div_cancel_right₀ _ hstep,
      Int.ceil_intCast]
  have htime : (generate_simulation_coordinates tc sc).time
      = (List.range tc.timepoints_max.toNat).map
          (fun k : ℕ => (k : ℚ) * tc.timepoints_stepsize) := by
    rw [generate_simulation_coordinates]
    dsimp only
    rw [arange, hn]
    exact List.map_congr_left (fun k _ => by rw [zero_add])
  refine ⟨htime, by rw [htime]; simp, ?_⟩
  refine ⟨arangeLen sc.wavelength_min sc.wavelength_max
    sc.wavelength_stepsize, rfl, fun k => ?_⟩
  rw [arangeLen]
  constructor
  · intro hk
    have h4 : ((k : ℤ) : ℚ)
        < ((sc.wavelength_max : ℚ) - (sc.wavelength_min : ℚ))
          / sc.wavelength_stepsize :=
      Int.lt_ceil.mp (Int.lt_toNat.mp hk)
    rw [lt_div_iff₀ h3] at h4
    push_cast at h4 ⊢
    linarith
  · intro hk
    have h4 : ((k : ℤ) : ℚ) * sc.wavelength_stepsize
        < (sc.wavelength_max : ℚ) - (sc.wavelength_min : ℚ) := by
      push_cast
      linarith
    rw [← lt_div_iff₀ h3] at h4
    exact Int.lt_toNat.mpr (Int.lt_ceil.mpr h4)

/-- Witness for C4: concrete coordinates with `timepoints_max = 3`,
stepsize 1, and a wavelength range 400 to 403 with stepsize 1. -/
theorem generate_simulation_coordinates_axes_witness :
    (0 : ℚ) < tcW.timepoints_stepsize ∧ (0 : ℤ) < tcW.timepoints_max
    ∧ (0 : ℚ) < scW.wavelength_stepsize
    ∧ ((generate_simulation_coordinates tcW scW).time
        = (List.range tcW.timepoints_max.toNat).map
            (fun k : ℕ => (k : ℚ) * tcW.timepoints_stepsize)
      ∧ (generate_simulation_coordinates tcW scW).time.length
        = tcW.timepoints_max.toNat
      ∧ ∃ K, (generate_simulation_coordinates tcW scW).spectral
          = (List.range K).map
              (fun k : ℕ => (scW.wavelength_min : ℚ)
                + (k : ℚ) * scW.wavelength_stepsize)
        ∧ ∀ k : ℕ, (k < K ↔
            (scW.wavelength_min : ℚ) + (k : ℚ) * scW.wavelength_stepsize
              < (scW.wavelength_max : ℚ))) :=
  ⟨by decide, by decide, by decide,
    generate_simulation_coordinates_axes tcW scW (by decide) (by decide)
      (by decide)⟩

theorem _sanitize_dict_nondict {v : Val} (h : isDictB v = false) :
    _sanitize_dict v = v := by
  cases v
  · rfl
  · rfl
  · rfl
  · rfl
  · rfl
  · exact absurd h (by simp [isDictB])

theorem not_noneOrEmptyList_sanitize {v : Val} (h : isEmptyish v = false) :
    isNoneOrEmptyList (_sanitize_dict v) = false := by
  cases v with
  | vnone => exact absurd h (by simp [isEmptyish])
  | vbool b => rfl
  | vnum q => rfl
  | vstr s => rfl
  | vlist l =>
    cases l with
    | nil => exact absurd h (by simp [isEmptyish])
    | cons a t => rfl
  | vdict d => rfl

mutual

theorem goodDict_sanitize : ∀ v : Val, goodDict (_sanitize_dict v) = true
  | .vnone => rfl
  | .vbool _ => rfl
  | .vnum _ => rfl
  | .vstr _ => rfl
  | .vlist _ => rfl
  | .vdict d => goodEntries_sanitizeEntries d

theorem goodEntries_sanitizeEntries :
    ∀ d : Entries, goodEntries (sanitizeEntries d) = true
  | .enil => rfl
  | .econs k v rest => by
    rw [sanitizeEntries]
    by_cases h : isEmptyish v = true
    · rw [if_pos h]
      exact goodEntries_sanitizeEntries rest
    · have hf : isEmptyish v = false := by
        cases hx : isEmptyish v
        · rfl
        · exact absurd hx h
      rw [if_neg h]
      rw [show goodEntries (.econs k (_sanitize_dict v)
          (sanitizeEntries rest))
        = (!(isNoneOrEmptyList (_sanitize_dict v))
            && goodDict (_sanitize_dict v)
            && goodEntries (sanitizeEntries rest)) from rfl]
      rw [not_noneOrEmptyList_sanitize hf, goodDict_sanitize v,
        goodEntries_sanitizeEntries rest]
      rfl

end

/-- C2 counterexample: sanitizing the mapping with `x` mapped to a dict
whose only entry is `None` leaves an entry with an empty-dict value, and
sanitizing a mapping whose list value holds a dict with a `None` entry
returns it unchanged — both outputs still contain an entry at some depth
whose value is `None`, `[]` or an empty dict, contradicting the claim as
stated. -/
theorem sanitize_dict_claim_counterexample :
    _sanitize_dict exBad
      = .vdict (.econs "x".data (.vdict .enil) .enil)
    ∧ hasBadEntry (_sanitize_dict exBad) = true
    ∧ _sanitize_dict exList = exList
    ∧ hasBadEntry (_sanitize_dict exList) = true :=
  ⟨rfl, rfl, rfl, rfl⟩

/-- C2 (amended): for every value, `_sanitize_dict` yields a result in
which no entry reachable through nested dict values is `None` or an
empty list; entries whose nonempty dict value sanitizes to the empty
dict are kept, dicts inside list values are not descended into, and any
non-dict input is returned unchanged. -/
theorem sanitize_dict_drops_none_and_empty_lists :
    (∀ v : Val, goodDict (_sanitize_dict v) = true)
    ∧ ∀ v : Val, isDictB v = false → _sanitize_dict v = v :=
  ⟨goodDict_sanitize, fun _ h => _sanitize_dict_nondict h⟩

/-- Witness for the amended C2 on concrete values: the sanitized `exBad`
satisfies the amended predicate, and a number is returned unchanged. -/
theorem sanitize_dict_drops_none_and_empty_lists_witness :
    goodDict (_sanitize_dict exBad) = true
    ∧ _sanitize_dict (Val.vnum 3) = Val.vnum 3 :=
  ⟨sanitize_dict_drops_none_and_empty_lists.1 exBad,
    sanitize_dict_drops_none_and_empty_lists.2 (Val.vnum 3) rfl⟩

/-- C10: `_generate_data_file` invokes the external `simulate` exactly
once, with the noise flag true iff `settings.stdev_noise` is nonzero and
with the standard deviation and seed passed unchanged; in particular a
zero `stdev_noise` gives a false noise flag. -/
theorem generate_data_file_noise_flag {Model : Type} (model : Model)
    (parameters : List Parameter) (coordinates : Coordinates)
    (settings : Settings) (file_name : List Char) :
    ∃ noise : Bool,
      _generate_data_file model parameters coordinates settings file_name
        = [Event.callSimulate model parameters coordinates noise
            settings.stdev_noise settings.seed,
          Event.callSaveDataset file_name]
      ∧ (noise = true ↔ settings.stdev_noise ≠ 0)
      ∧ (settings.stdev_noise = 0 → noise = false) := by
  refine ⟨decide (settings.stdev_noise ≠ 0), rfl, decide_eq_true_iff, ?_⟩
  intro h
  simp [h]

/-- C6: the pipeline's first external call is `generate_model` with
generator name `spectral_decay_sequential` iff `use_sequential_scheme`
(`spectral_decay_parallel` otherwise), with `irf` equal to
`add_gaussian_irf` and `nr_compartments` equal to the number of decay
rates. -/
theorem generate_model_file_generator_choice {Model : Type}
    (ext : Externals Model) (simulation_config : SimulationConfig)
    (mf pf df : List Char) :
    ∃ name rest,
      (generate_model_parameter_and_data_files ext simulation_config
          mf pf df).1
        = Event.callGenerateModel name
            simulation_config.kinetic_parameters.decay_rates.length
            simulation_config.settings.add_gaussian_irf :: rest
      ∧ (name = "spectral_decay_sequential".data
          ↔ simulation_config.settings.use_sequential_scheme = true)
      ∧ (name = "spectral_decay_parallel".data
          ↔ simulation_config.settings.use_sequential_scheme = false) := by
  refine ⟨if simulation_config.settings.use_sequential_scheme then
      "spectral_decay_sequential".data
    else "spectral_decay_parallel".data, ?_⟩
  rw [generate_model_parameter_and_data_files, _generate_parameter_file]
  rcases hu : _update_parameter_values
      (ext.generate_parameters
        (_generate_model_file ext simulation_config
          simulation_config.kinetic_parameters.decay_rates.length mf).1)
      simulation_config with _ | updated
  · refine ⟨_, rfl, ?_, ?_⟩
    · cases hb : simulation_config.settings.use_sequential_scheme <;>
        simp [hb]
    · cases hb : simulation_config.settings.use_sequential_scheme <;>
        simp [hb]
  · refine ⟨_, rfl, ?_, ?_⟩
    · cases hb : simulation_config.settings.use_sequential_scheme <;>
        simp [hb]
    · cases hb : simulation_config.settings.use_sequential_scheme <;>
        simp [hb]

/-- C3: whenever the pipeline completes, its external-call trace is
exactly: the model generation step (generate, save, sanitize), then the
parameter step (generate parameters, validate, save — on the rewritten
parameters), then the dataset step (simulate on the rewritten
parameters, save); each step occurs exactly once and in this order. -/
theorem pipeline_three_steps {Model : Type} (ext : Externals Model)
    (simulation_config : SimulationConfig) (mf pf df : List Char)
    (hok : (generate_model_parameter_and_data_files ext simulation_config
      mf pf df).2 = true) :
    ∃ updated,
      _update_parameter_values
        (ext.generate_parameters
          (ext.generate_model
            (if simulation_config.settings.use_sequential_scheme then
              "spectral_decay_sequential".data
            else "spectral_decay_parallel".data)
            simulation_config.kinetic_parameters.decay_rates.length
            simulation_config.settings.add_gaussian_irf))
        simulation_config = some updated
      ∧ (generate_model_parameter_and_data_files ext simulation_config
          mf pf df).1
        = [Event.callGenerateModel
            (if simulation_config.settings.use_sequential_scheme then
              "spectral_decay_sequential".data
            else "spectral_decay_parallel".data)
            simulation_config.kinetic_parameters.decay_rates.length
            simulation_config.settings.add_gaussian_irf,
          Event.callSaveModel
            (ext.generate_model
              (if simulation_config.settings.use_sequential_scheme then
                "spectral_decay_sequential".data
              else "spectral_decay_parallel".data)
              simulation_config.kinetic_parameters.decay_rates.length
              simulation_config.settings.add_gaussian_irf)
            "temp_model.yml".data,
          Event.callSanitizeYaml "temp_model.yml".data mf,
          Event.callGenerateParameters
            (ext.generate_model
              (if simulation_config.settings.use_sequential_scheme then
                "spectral_decay_sequential".data
              else "spectral_decay_parallel".data)
              simulation_config.kinetic_parameters.decay_rates.length
              simulation_config.settings.add_gaussian_irf),
          Event.callValidate
            (ext.generate_model
              (if simulation_config.settings.use_sequential_scheme then
                "spectral_decay_sequential".data
              else "spectral_decay_parallel".data)
              simulation_config.kinetic_parameters.decay_rates.length
              simulation_config.settings.add_gaussian_irf)
            updated,
          Event.callSaveParameters updated pf,
          Event.callSimulate
            (ext.generate_model
              (if simulation_config.settings.use_sequential_scheme then
                "spectral_decay_sequential".data
              else "spectral_decay_parallel".data)
              simulation_config.kinetic_parameters.decay_rates.length
              simulation_config.settings.add_gaussian_irf)
            updated
            simulation_config.coordinates
            (decide (simulation_config.settings.stdev_noise ≠ 0))
            simulation_config.settings.stdev_noise
            simulation_config.settings.seed,
          Event.callSaveDataset df] := by
  rw [generate_model_parameter_and_data_files, _generate_parameter_file]
    at hok ⊢
  rcases hu : _update_parameter_values
      (ext.generate_parameters
        (_generate_model_file ext simulation_config
          simulation_config.kinetic_parameters.decay_rates.length mf).1)
      simulation_config with _ | updated
  · rw [hu] at hok
    simp at hok
  · exact ⟨updated, hu, rfl⟩

/-- Witness for C3: the pipeline completes on the concrete oracle `extW`
and configuration `cfgW` and produces the three delegated steps in
order. -/
theorem pipeline_three_steps_witness :
    (generate_model_parameter_and_data_files extW cfgW "m.yml".data
      "p.csv".data "d.nc".data).2 = true
    ∧ ∃ updated,
      _update_parameter_values
        (extW.generate_parameters
          (extW.generate_model
            (if cfgW.settings.use_sequential_scheme then
              "spectral_decay_sequential".data
            else "spectral_decay_parallel".data)
            cfgW.kinetic_parameters.decay_rates.length
            cfgW.settings.add_gaussian_irf))
        cfgW = some updated
      ∧ (generate_model_parameter_and_data_files extW cfgW "m.yml".data
          "p.csv".data "d.nc".data).1
        = [Event.callGenerateModel
            (if cfgW.settings.use_sequential_scheme then
              "spectral_decay_sequential".data
            else "spectral_decay_parallel".data)
            cfgW.kinetic_parameters.decay_rates.length
            cfgW.settings.add_gaussian_irf,
          Event.callSaveModel
            (extW.generate_model
              (if cfgW.settings.use_sequential_scheme then
                "spectral_decay_sequential".data
              else "spectral_decay_parallel".data)
              cfgW.kinetic_parameters.decay_rates.length
              cfgW.settings.add_gaussian_irf)
            "temp_model.yml".data,
          Event.callSanitizeYaml "temp_model.yml".data "m.yml".data,
          Event.callGenerateParameters
            (extW.generate_model
              (if cfgW.settings.use_sequential_scheme then
                "spectral_decay_sequential".data
              else "spectral_decay_parallel".data)
              cfgW.kinetic_parameters.decay_rates.length
              cfgW.settings.add_gaussian_irf),
          Event.callValidate
            (extW.generate_model
              (if cfgW.settings.use_sequential_scheme then
                "spectral_decay_sequential".data
              else "spectral_decay_parallel".data)
              cfgW.kinetic_parameters.decay_rates.length
              cfgW.settings.add_gaussian_irf)
            updated,
          Event.callSaveParameters updated "p.csv".data,
          Event.callSimulate
            (extW.generate_model
              (if cfgW.settings.use_sequential_scheme then
                "spectral_decay_sequential".data
              else "spectral_decay_parallel".data)
              cfgW.kinetic_parameters.decay_rates.length
              cfgW.settings.add_gaussian_irf)
            updated
            cfgW.coordinates
            (decide (cfgW.settings.stdev_noise ≠ 0))
            cfgW.settings.stdev_noise
            cfgW.settings.seed,
          Event.callSaveDataset "d.nc".data] :=
  ⟨rfl, pipeline_three_steps extW cfgW "m.yml".data "p.csv".data
    "d.nc".data rfl⟩

/-- C7 counterexample: on the concrete oracle `extW` and configuration
`cfgW`, the io.py variant of `_generate_parameter_file` returns the raw
generated parameters `psW` while the utils.py variant returns the
rewritten `psW2`, so the two variants do not compute the same result. -/
theorem parameter_file_variants_differ :
    (_generate_parameter_file extW cfgW () "p".data).1
      ≠ some ((IoPy._generate_parameter_file extW () "p".data).1) := by
  decide

/-- C7 (amended): the io.py variant omits the label-driven rewrite — it
validates and saves the parameters exactly as generated — while the
utils.py variant returns the rewrite of that same collection: the
parameters of the utils.py variant equal `_update_parameter_values`
applied to the parameters of the io.py variant. -/
theorem parameter_file_variants_relation {Model : Type}
    (ext : Externals Model) (simulation_config : SimulationConfig)
    (model : Model) (f1 f2 : List Char) :
    (_generate_parameter_file ext simulation_config model f1).1
      = _update_parameter_values
          ((IoPy._generate_parameter_file ext model f2).1)
          simulation_config := by
  rw [_generate_parameter_file, IoPy._generate_parameter_file]
  rcases hu : _update_parameter_values (ext.generate_parameters model)
      simulation_config with _ | updated <;> simp [hu]

end PyParamGui
